import Mathlib

/-!
# FireWatch: the county wildfire-risk choropleth (`firewatch/src/App.jsx`)

A shallow embedding of the logic of `App.jsx`: the colour ladder `getColor`,
the constant table `fipsToStateAbbr`, the per-feature callback
`onEachFeature`, and the legend written in the component's JSX.

Conventions of the embedding.

* A JavaScript number is a `JSNumber`: `NaN`, the two infinities, or a finite
  value. Every finite binary64 value is a rational number and the comparisons
  of the program are against the integer constants 20, 40, 60 and 80, so the
  finite values are taken in `ℚ` (a superset of the finite doubles). The two
  zeros are not distinguished: the program only compares, tests truthiness and
  prints, and `-0` behaves as `0` in all three.
* A JavaScript string is a Lean `String`.
* `undefined` as the result of a property read is `none`.
* A property read `o[k]` is modelled on the object's own properties. The keys
  read by the program are a state FIPS code and a string containing
  `" County, "`; neither is the name of an inherited property of a plain object.
-/

namespace FireWatch

/-! ## JavaScript values -/

/-- A JavaScript number: `NaN`, `-Infinity`, `Infinity`, or a finite value. -/
inductive JSNumber where
  | nan
  | negInf
  | posInf
  | fin (q : ℚ)
  deriving DecidableEq

namespace JSNumber

/-- The relational operator `a < b` on numbers: false as soon as one side is `NaN`. -/
def lt : JSNumber → JSNumber → Bool
  | nan, _ => false
  | _, nan => false
  | _, negInf => false
  | negInf, _ => true
  | posInf, _ => false
  | fin _, posInf => true
  | fin a, fin b => decide (a < b)

/-- The relational operator `a > b`, which JavaScript evaluates as `b < a`. -/
def gt (a b : JSNumber) : Bool := lt b a

/-- The relational operator `a <= b`: false when one side is `NaN`, and otherwise
the negation of `b < a`. -/
def le : JSNumber → JSNumber → Bool
  | nan, _ => false
  | _, nan => false
  | a, b => !(lt b a)

/-- Truthiness of a number: `NaN` and zero are falsy, every other number is truthy. -/
def truthy : JSNumber → Bool
  | nan => false
  | fin q => decide (q ≠ 0)
  | _ => true

/-- Whether a number is an integer (`Number.isInteger`). -/
def isInteger : JSNumber → Bool
  | fin q => decide (q.den = 1)
  | _ => false

end JSNumber

/-- The expression `v || d` where `v` is the result of a property read holding a
number (or `undefined`, here `none`) and `d` is a number: `v` when it is truthy,
otherwise `d`. -/
def orDefault (v : Option JSNumber) (d : JSNumber) : JSNumber :=
  match v with
  | some x => if x.truthy then x else d
  | none => d

/-- String conversion of the result of a property read holding a string, as performed
by a template literal: `undefined` becomes the text `"undefined"`. -/
def stringOrUndefined : Option String → String
  | some s => s
  | none => "undefined"

/-- String conversion of a number, as performed by a template literal
(`Number::toString` in radix 10). A safe integer, an integer of magnitude below `2^53`,
is a binary64 value whose shortest round-trip digits are its own decimal digits: it is
printed as these digits, with a leading `-` when negative. The text of every other
finite value (a fraction, or an integer from `2^53` on) is the shortest digit string
that rounds to its binary64 representation; it is not computed here and is given by
the parameter `fracToString`. -/
def numberToString (fracToString : ℚ → String) : JSNumber → String
  | .nan => "NaN"
  | .posInf => "Infinity"
  | .negInf => "-Infinity"
  | .fin q =>
    if q.den = 1 ∧ q.num.natAbs < 2 ^ 53 then toString q.num else fracToString q

/-! ## `getColor` (App.jsx, lines 7-13) -/

/-- The colour ladder of `getColor`. -/
def getColor (risk : JSNumber) : String :=
  if risk.gt (.fin 80) then "#800026"
  else if risk.gt (.fin 60) then "#BD0026"
  else if risk.gt (.fin 40) then "#E31A1C"
  else if risk.gt (.fin 20) then "#FD8D3C"
  else "#FFEDA0"

/-! ## `fipsToStateAbbr` (App.jsx, lines 15-27) -/

/-- The object literal `fipsToStateAbbr`, as its list of own properties. -/
def fipsToStateAbbr : List (String × String) :=
  [ ("01", "AL"), ("02", "AK"), ("04", "AZ"), ("05", "AR"), ("06", "CA"),
    ("08", "CO"), ("09", "CT"), ("10", "DE"), ("11", "DC"), ("12", "FL"),
    ("13", "GA"), ("15", "HI"), ("16", "ID"), ("17", "IL"), ("18", "IN"),
    ("19", "IA"), ("20", "KS"), ("21", "KY"), ("22", "LA"), ("23", "ME"),
    ("24", "MD"), ("25", "MA"), ("26", "MI"), ("27", "MN"), ("28", "MS"),
    ("29", "MO"), ("30", "MT"), ("31", "NE"), ("32", "NV"), ("33", "NH"),
    ("34", "NJ"), ("35", "NM"), ("36", "NY"), ("37", "NC"), ("38", "ND"),
    ("39", "OH"), ("40", "OK"), ("41", "OR"), ("42", "PA"), ("44", "RI"),
    ("45", "SC"), ("46", "SD"), ("47", "TN"), ("48", "TX"), ("49", "UT"),
    ("50", "VT"), ("51", "VA"), ("53", "WA"), ("54", "WV"), ("55", "WI"),
    ("56", "WY") ]

/-- The property read `fipsToStateAbbr[fips]`. -/
def fipsLookup (fips : String) : Option String :=
  fipsToStateAbbr.lookup fips

/-- The state abbreviations, the values of `fipsToStateAbbr`. -/
def stateAbbrs : List String :=
  fipsToStateAbbr.map Prod.snd

/-- A state FIPS code as the boundary data gives it: two decimal digits. -/
def isFipsCode (fips : String) : Bool :=
  fips.length == 2 && fips.data.all Char.isDigit

/-! ## The component state and `onEachFeature` (App.jsx, lines 29-61) -/

/-- The `properties` of a county feature that the callback reads: the county name
`NAME` and the state FIPS code `STATEFP`, two digits in the boundary data. -/
structure Feature where
  NAME : String
  STATEFP : String

/-- The risk table `riskData`: an object whose own properties hold JSON numbers.
A JSON number literal denotes a finite value. -/
abbrev RiskTable := String → Option ℚ

/-- The property read `riskData[name]`. -/
def RiskTable.read (riskData : RiskTable) (name : String) : Option JSNumber :=
  (riskData name).map JSNumber.fin

/-- The initial state of the component, `useState({})`: the empty object. -/
def initialRiskData : RiskTable := fun _ => none

/-- The argument of `layer.setStyle`. -/
structure PathStyle where
  fillColor : String
  fillOpacity : ℚ
  weight : ℚ
  color : String

/-- The options argument of `layer.bindTooltip`. -/
structure TooltipOptions where
  sticky : Bool
  direction : String
  offset : Int × Int
  opacity : ℚ
  className : String

/-- What one run of `onEachFeature` does to its layer: the argument of the call
of `setStyle` and the two arguments of the call of `bindTooltip`. -/
structure LayerAnnotation where
  style : PathStyle
  tooltipContent : String
  tooltipOptions : TooltipOptions

/-- The local constant `name` of `onEachFeature` (lines 37-40): the template
literal over the county name and the state abbreviation read from the table. -/
def featureName (feature : Feature) : String :=
  let county := feature.NAME
  let fips := feature.STATEFP
  let stateAbbr := fipsLookup fips
  county ++ " County, " ++ stringOrUndefined stateAbbr

/-- The local constant `risk` of `onEachFeature` (line 42): `riskData[name] || 0`. -/
def featureRisk (riskData : RiskTable) (feature : Feature) : JSNumber :=
  orDefault (riskData.read (featureName feature)) (.fin 0)

/-- The callback `onEachFeature` (lines 36-61), closed over the state `riskData`. -/
def onEachFeature (fracToString : ℚ → String) (riskData : RiskTable)
    (feature : Feature) : LayerAnnotation :=
  let name := featureName feature
  let risk := featureRisk riskData feature
  { style :=
      { fillColor := getColor risk
        fillOpacity := 7 / 10
        weight := 1
        color := "#999" }
    tooltipContent :=
      "<strong>" ++ name ++ "</strong><br/><span style=\"color:black;\">Risk: "
        ++ numberToString fracToString risk ++ "%</span>"
    tooltipOptions :=
      { sticky := true
        direction := "top"
        offset := (0, -10)
        opacity := 9 / 10
        className := "custom-tooltip" } }

/-! ## The legend (App.jsx, lines 94-114) -/

/-- One row of the legend: the `background` of the swatch and the text beside it. -/
structure LegendEntry where
  background : String
  label : String

/-- The five rows of the legend, in the order of the JSX. -/
def legend : List LegendEntry :=
  [ { background := "#FFEDA0", label := "0–20% (Low)" },
    { background := "#FD8D3C", label := "21–40% (Moderate)" },
    { background := "#E31A1C", label := "41–60% (High)" },
    { background := "#BD0026", label := "61–80% (Very High)" },
    { background := "#800026", label := "81–100% (Extreme)" } ]

/-- The value of a run of decimal digits. -/
def digitsValue (cs : List Char) : Nat :=
  cs.foldl (fun n c => 10 * n + (c.toNat - '0'.toNat)) 0

/-- The range of percentages a legend label names: the digits before the en dash
and the digits between the en dash and the percent sign. -/
def labelRange (label : String) : Option (Nat × Nat) :=
  let cs := label.data
  let lo := cs.takeWhile Char.isDigit
  match cs.dropWhile Char.isDigit with
  | '–' :: rest =>
    let hi := rest.takeWhile Char.isDigit
    match rest.dropWhile Char.isDigit with
    | '%' :: _ => if lo ≠ [] ∧ hi ≠ [] then some (digitsValue lo, digitsValue hi) else none
    | _ => none
  | _ => none

/-- Whether the risk `r` lies in the range named by a legend row, both ends included. -/
def LegendEntry.covers (e : LegendEntry) (r : JSNumber) : Bool :=
  match labelRange e.label with
  | some (lo, hi) => JSNumber.le (.fin lo) r && JSNumber.le r (.fin hi)
  | none => false

/-! ## The documented buckets and the warmth order -/

/-- The five documented buckets, in the words of the specification: the half-open
ranges `(0,20]`, `(20,40]`, `(40,60]`, `(60,80]`, `(80,100]`, as
(lower bound, upper bound, colour). -/
def documentedBuckets : List (ℚ × ℚ × String) :=
  [ (0, 20, "#FFEDA0"), (20, 40, "#FD8D3C"), (40, 60, "#E31A1C"),
    (60, 80, "#BD0026"), (80, 100, "#800026") ]

/-- The five colours from the coolest to the warmest. -/
def warmthOrder : List String :=
  ["#FFEDA0", "#FD8D3C", "#E31A1C", "#BD0026", "#800026"]

/-- The position of a colour in the warmth order. -/
def warmth (colour : String) : Nat :=
  warmthOrder.indexOf colour

/-- Text containment: `part` occurs in `whole` as a contiguous run of characters. -/
def Occurs (part whole : String) : Prop :=
  part.data <:+: whole.data

/-- The keys of a risk table have the documented form
`"<CountyName> County, <StateAbbreviation>"`, the abbreviation being one of the
values of `fipsToStateAbbr`. -/
def RiskTable.KeysWellFormed (riskData : RiskTable) : Prop :=
  ∀ key, riskData key ≠ none →
    ∃ county abbr, abbr ∈ stateAbbrs ∧ key = county ++ " County, " ++ abbr

/-- A risk table with the single entry `key : value`. -/
def singleEntry (key : String) (value : ℚ) : RiskTable :=
  fun k => if k = key then some value else none

/-! ## Auxiliary facts -/


theorem getColor_fin (q : ℚ) :
    getColor (.fin q) =
      if 80 < q then "#800026" else if 60 < q then "#BD0026"
      else if 40 < q then "#E31A1C" else if 20 < q then "#FD8D3C" else "#FFEDA0" := by
  simp [getColor, JSNumber.gt, JSNumber.lt]

theorem documentedBuckets_disjoint (q : ℚ) (b b' : ℚ × ℚ × String)
    (hb : b ∈ documentedBuckets) (hb' : b' ∈ documentedBuckets)
    (h1 : b.1 < q) (h2 : q ≤ b.2.1) (h1' : b'.1 < q) (h2' : q ≤ b'.2.1) : b' = b := by
  simp only [documentedBuckets, List.mem_cons, List.mem_singleton, List.not_mem_nil,
    or_false] at hb hb'
  rcases hb with rfl | rfl | rfl | rfl | rfl <;>
    rcases hb' with rfl | rfl | rfl | rfl | rfl <;>
    first
      | rfl
      | (exfalso; dsimp only at h1 h2 h1' h2'; linarith)

theorem getColor_mem_warmthOrder (r : JSNumber) : getColor r ∈ warmthOrder := by
  unfold getColor warmthOrder; split_ifs <;> simp

/-! ## The colour ladder -/

/-- Claim C1: for every number `r` (negative values, values above 100, `NaN` and the
infinities included) `getColor r` is one of the five colours, chosen by the first
threshold that `r` exceeds in the order 80, 60, 40, 20, and `"#FFEDA0"` when it exceeds
none; for `r` in `(0, 100]` exactly one documented half-open range contains `r` and its
colour is `getColor r`; `getColor 0 = "#FFEDA0"` and `getColor 100 = "#800026"`. -/
theorem getColor_first_matching_threshold (r : JSNumber) :
    (getColor r = "#800026" ↔ r.gt (.fin 80) = true) ∧
    (getColor r = "#BD0026" ↔ r.gt (.fin 80) = false ∧ r.gt (.fin 60) = true) ∧
    (getColor r = "#E31A1C" ↔
      r.gt (.fin 80) = false ∧ r.gt (.fin 60) = false ∧ r.gt (.fin 40) = true) ∧
    (getColor r = "#FD8D3C" ↔
      r.gt (.fin 80) = false ∧ r.gt (.fin 60) = false ∧ r.gt (.fin 40) = false ∧
        r.gt (.fin 20) = true) ∧
    (getColor r = "#FFEDA0" ↔
      r.gt (.fin 80) = false ∧ r.gt (.fin 60) = false ∧ r.gt (.fin 40) = false ∧
        r.gt (.fin 20) = false) ∧
    getColor r ∈ warmthOrder ∧
    (∀ q : ℚ, r = .fin q → 0 < q → q ≤ 100 →
      ∃ b ∈ documentedBuckets, (b.1 < q ∧ q ≤ b.2.1 ∧ b.2.2 = getColor r) ∧
        ∀ b' ∈ documentedBuckets, b'.1 < q → q ≤ b'.2.1 → b' = b) ∧
    getColor (.fin 0) = "#FFEDA0" ∧ getColor (.fin 100) = "#800026" := by
  refine ⟨?_, ?_, ?_, ?_, ?_, ?_, ?_, by decide, by decide⟩
  · unfold getColor; split_ifs <;> simp_all
  · unfold getColor; split_ifs <;> simp_all
  · unfold getColor; split_ifs <;> simp_all
  · unfold getColor; split_ifs <;> simp_all
  · unfold getColor; split_ifs <;> simp_all
  · exact getColor_mem_warmthOrder r
  · rintro q rfl h0 h100
    have key : ∀ b ∈ documentedBuckets, b.1 < q → q ≤ b.2.1 → b.2.2 = getColor (.fin q) →
        ∃ b ∈ documentedBuckets, (b.1 < q ∧ q ≤ b.2.1 ∧ b.2.2 = getColor (.fin q)) ∧
          ∀ b' ∈ documentedBuckets, b'.1 < q → q ≤ b'.2.1 → b' = b :=
      fun b hb h1 h2 h3 => ⟨b, hb, ⟨h1, h2, h3⟩, fun b' hb' h1' h2' =>
        documentedBuckets_disjoint q b b' hb hb' h1 h2 h1' h2'⟩
    rw [getColor_fin] at key ⊢
    split_ifs at key ⊢ with h80 h60 h40 h20
    · exact key (80, 100, "#800026") (by simp [documentedBuckets]) h80 h100 rfl
    · exact key (60, 80, "#BD0026") (by simp [documentedBuckets]) h60 (not_lt.mp h80) rfl
    · exact key (40, 60, "#E31A1C") (by simp [documentedBuckets]) h40 (not_lt.mp h60) rfl
    · exact key (20, 40, "#FD8D3C") (by simp [documentedBuckets]) h20 (not_lt.mp h40) rfl
    · exact key (0, 20, "#FFEDA0") (by simp [documentedBuckets]) h0 (not_lt.mp h20) rfl

/-- Instances of the ladder at 50, at a negative value and at a value above 100. -/
theorem getColor_first_matching_threshold_witness :
    getColor (.fin 50) = "#E31A1C" ∧ getColor (.fin (-3)) = "#FFEDA0" ∧
      getColor (.fin 250) = "#800026" :=
  ⟨(getColor_first_matching_threshold (.fin 50)).2.2.1.mpr (by decide),
   (getColor_first_matching_threshold (.fin (-3))).2.2.2.2.1.mpr (by decide),
   (getColor_first_matching_threshold (.fin 250)).1.mpr (by decide)⟩

/-- Claim C2, as amended: at the bucket boundaries `getColor 20 = "#FFEDA0"`,
`getColor 21 = "#FD8D3C"`, `getColor 80 = "#BD0026"` and `getColor 81 = "#800026"`. -/
theorem getColor_bucket_boundaries :
    getColor (.fin 20) = "#FFEDA0" ∧ getColor (.fin 21) = "#FD8D3C" ∧
      getColor (.fin 80) = "#BD0026" ∧ getColor (.fin 81) = "#800026" := by
  decide

/-- Claim C2 fails as stated: `getColor 80` is `"#BD0026"`, the colour of the
legend row `61–80%`, and not `"#E31A1C"`. -/
theorem getColor_eighty_not_red :
    getColor (.fin 80) = "#BD0026" ∧ getColor (.fin 80) ≠ "#E31A1C" ∧
    ¬ (getColor (.fin 20) = "#FFEDA0" ∧ getColor (.fin 21) = "#FD8D3C" ∧
      getColor (.fin 80) = "#E31A1C" ∧ getColor (.fin 81) = "#800026") := by
  decide

theorem getColor_nan : getColor .nan = "#FFEDA0" := by decide

theorem getColor_negInf : getColor .negInf = "#FFEDA0" := by decide

theorem getColor_posInf : getColor .posInf = "#800026" := by decide

theorem warmth_getColor_fin (q : ℚ) :
    warmth (getColor (.fin q)) =
      if 80 < q then 4 else if 60 < q then 3 else if 40 < q then 2
      else if 20 < q then 1 else 0 := by
  rw [getColor_fin]
  split_ifs <;> decide

/-- Claim C9: `getColor` is monotone, for `r1 <= r2` the colour of `r1` is no warmer
than the colour of `r2` in the order `"#FFEDA0"`, `"#FD8D3C"`, `"#E31A1C"`, `"#BD0026"`,
`"#800026"`, and the colours `getColor` returns are exactly these five distinct ones. -/
theorem getColor_monotone_in_warmth :
    (∀ r1 r2 : JSNumber, JSNumber.le r1 r2 = true →
      warmth (getColor r1) ≤ warmth (getColor r2)) ∧
    (∀ c : String, (∃ r, getColor r = c) ↔ c ∈ warmthOrder) ∧
    warmthOrder = ["#FFEDA0", "#FD8D3C", "#E31A1C", "#BD0026", "#800026"] ∧
    (∀ c ∈ warmthOrder, ∀ d ∈ warmthOrder, warmth c = warmth d → c = d) := by
  refine ⟨?_, ?_, rfl, by decide⟩
  · intro r1 r2 h
    cases r1 <;> cases r2 <;>
      simp only [JSNumber.le, JSNumber.lt, Bool.not_true, Bool.not_false, Bool.false_eq_true,
        Bool.not_eq_true', decide_eq_false_iff_not, not_lt] at h <;>
      try (simp only [getColor_nan, getColor_negInf, getColor_posInf]) <;>
      try decide
    · rename_i q; rw [warmth_getColor_fin]; split_ifs <;> decide
    · rename_i q; rw [warmth_getColor_fin]; split_ifs <;> decide
    · rename_i a b
      rw [warmth_getColor_fin, warmth_getColor_fin]
      split_ifs <;> first | decide | (exfalso; linarith)
  · intro c
    constructor
    · rintro ⟨r, rfl⟩
      exact getColor_mem_warmthOrder r
    · intro hc
      simp only [warmthOrder, List.mem_cons, List.mem_singleton, List.not_mem_nil,
        or_false] at hc
      rcases hc with rfl | rfl | rfl | rfl | rfl
      · exact ⟨.fin 0, by decide⟩
      · exact ⟨.fin 30, by decide⟩
      · exact ⟨.fin 50, by decide⟩
      · exact ⟨.fin 70, by decide⟩
      · exact ⟨.fin 90, by decide⟩

/-! ## Facts about lookups, keys and text -/

theorem mem_of_lookup_eq_some {l : List (String × String)} {k v : String}
    (h : l.lookup k = some v) : (k, v) ∈ l := by
  obtain ⟨l₁, l₂, rfl, -⟩ := List.lookup_eq_some_iff.mp h
  simp

theorem lookup_eq_some_of_mem_keys {l : List (String × String)} {k : String}
    (h : k ∈ l.map Prod.fst) : ∃ v, l.lookup k = some v := by
  have hs : (l.lookup k).isSome = true := by
    rw [List.lookup_isSome_iff]
    obtain ⟨p, hp, rfl⟩ := List.mem_map.mp h
    exact ⟨p, hp, by simp⟩
  exact Option.isSome_iff_exists.mp hs

theorem lookup_eq_none_of_not_mem_keys {l : List (String × String)} {k : String}
    (h : k ∉ l.map Prod.fst) : l.lookup k = none := by
  rw [List.lookup_eq_none_iff]
  intro p hp
  simp only [bne_iff_ne, ne_eq]
  rintro rfl
  exact h (List.mem_map_of_mem _ hp)

theorem key_append_inj {c₁ c₂ a₁ a₂ : String} (hlen : a₁.length = a₂.length)
    (h : c₁ ++ " County, " ++ a₁ = c₂ ++ " County, " ++ a₂) : c₁ = c₂ ∧ a₁ = a₂ := by
  have hd := congrArg String.data h
  simp only [String.data_append] at hd
  obtain ⟨h₁, h₂⟩ := List.append_inj' hd hlen
  obtain ⟨h₃, -⟩ := List.append_inj' h₁ rfl
  exact ⟨String.ext h₃, String.ext h₂⟩

theorem occurs_mid (pre part post : String) : Occurs part (pre ++ part ++ post) :=
  ⟨pre.data, post.data, by simp⟩

theorem stateAbbrs_length_two : ∀ abbr ∈ stateAbbrs, abbr.length = 2 := by decide

theorem featureName_of_lookup (c f abbr : String) (h : fipsLookup f = some abbr) :
    featureName ⟨c, f⟩ = c ++ " County, " ++ abbr := by
  simp [featureName, h, stringOrUndefined]

theorem featureRisk_of_entry (riskData : RiskTable) (feature : Feature) (v : ℚ)
    (h : riskData (featureName feature) = some v) :
    featureRisk riskData feature = .fin v := by
  simp only [featureRisk, RiskTable.read, h, Option.map_some', orDefault, JSNumber.truthy]
  by_cases hv : v = 0 <;> simp [hv]

theorem featureRisk_of_missing (riskData : RiskTable) (feature : Feature)
    (h : riskData (featureName feature) = none) :
    featureRisk riskData feature = .fin 0 := by
  simp [featureRisk, RiskTable.read, h, orDefault]

theorem tooltipContent_eq (fracToString : ℚ → String) (riskData : RiskTable)
    (feature : Feature) :
    (onEachFeature fracToString riskData feature).tooltipContent =
      "<strong>" ++ featureName feature ++ "</strong><br/><span style=\"color:black;\">Risk: "
        ++ numberToString fracToString (featureRisk riskData feature) ++ "%</span>" :=
  rfl

theorem fillColor_eq (fracToString : ℚ → String) (riskData : RiskTable)
    (feature : Feature) :
    (onEachFeature fracToString riskData feature).style.fillColor =
      getColor (featureRisk riskData feature) :=
  rfl

/-! ## The composite key and the annotation -/

/-- Claim C3: for every county name `c` and every FIPS code `f` that is a key of
`fipsToStateAbbr`, the key built by `onEachFeature` is `c`, then `" County, "`, then
`fipsToStateAbbr[f]`; county `"Los Angeles"` with FIPS `"06"` gives
`"Los Angeles County, CA"`. -/
theorem featureName_of_known_fips (c f : String)
    (h : f ∈ fipsToStateAbbr.map Prod.fst) :
    (∃ abbr, fipsLookup f = some abbr ∧ (f, abbr) ∈ fipsToStateAbbr ∧
      featureName ⟨c, f⟩ = c ++ " County, " ++ abbr) ∧
    featureName ⟨"Los Angeles", "06"⟩ = "Los Angeles County, CA" := by
  refine ⟨?_, by decide⟩
  obtain ⟨abbr, hab⟩ := lookup_eq_some_of_mem_keys h
  exact ⟨abbr, hab, mem_of_lookup_eq_some hab, featureName_of_lookup c f abbr hab⟩

/-- The key of Travis County, Texas (FIPS `"48"`). -/
theorem featureName_of_known_fips_witness :
    "48" ∈ fipsToStateAbbr.map Prod.fst ∧
    ((∃ abbr, fipsLookup "48" = some abbr ∧ ("48", abbr) ∈ fipsToStateAbbr ∧
      featureName ⟨"Travis", "48"⟩ = "Travis" ++ " County, " ++ abbr) ∧
    featureName ⟨"Los Angeles", "06"⟩ = "Los Angeles County, CA") :=
  ⟨by decide, featureName_of_known_fips "Travis" "48" (by decide)⟩

theorem digitChar_value (m : ℕ) (h : m < 10) :
    (Nat.digitChar m).toNat - '0'.toNat = m := by
  interval_cases m <;> rfl

theorem digitChar_isDigit (m : ℕ) (h : m < 10) : (Nat.digitChar m).isDigit = true := by
  interval_cases m <;> rfl

theorem foldl_toDigitsCore (fuel : ℕ) : ∀ (n : ℕ) (ds : List Char), n < fuel →
    (Nat.toDigitsCore 10 fuel n ds).foldl (fun n c => 10 * n + (c.toNat - '0'.toNat)) 0 =
      ds.foldl (fun n c => 10 * n + (c.toNat - '0'.toNat)) n := by
  induction fuel with
  | zero => intro n ds h; omega
  | succ fuel ih =>
    intro n ds h
    rw [Nat.toDigitsCore]
    have hd := digitChar_value (n % 10) (Nat.mod_lt _ (by norm_num))
    by_cases h0 : n / 10 = 0
    · simp only [h0, if_true, List.foldl_cons, hd]
      have : n % 10 = n := Nat.mod_eq_of_lt (by omega)
      simp [this]
    · simp only [h0, if_false]
      rw [ih (n / 10) _ (by omega), List.foldl_cons, hd]
      congr 1
      omega

theorem all_isDigit_toDigitsCore (fuel : ℕ) : ∀ (n : ℕ) (ds : List Char),
    (∀ c ∈ ds, c.isDigit = true) →
    ∀ c ∈ Nat.toDigitsCore 10 fuel n ds, c.isDigit = true := by
  induction fuel with
  | zero => intro n ds h; simpa [Nat.toDigitsCore] using h
  | succ fuel ih =>
    intro n ds h
    rw [Nat.toDigitsCore]
    have hd := digitChar_isDigit (n % 10) (Nat.mod_lt _ (by norm_num))
    have hds : ∀ c ∈ Nat.digitChar (n % 10) :: ds, c.isDigit = true := by
      intro c hc
      rcases List.mem_cons.mp hc with rfl | hc
      · exact hd
      · exact h c hc
    by_cases h0 : n / 10 = 0
    · simpa only [h0, if_true] using hds
    · simp only [h0, if_false]
      exact ih _ _ hds

theorem digitsValue_repr (m : ℕ) : digitsValue (Nat.repr m).data = m := by
  have := foldl_toDigitsCore (m + 1) m [] (Nat.lt_succ_self m)
  simpa [digitsValue, Nat.repr, Nat.toDigits, List.asString] using this

theorem isDigit_repr (m : ℕ) : ∀ c ∈ (Nat.repr m).data, c.isDigit = true := by
  have := all_isDigit_toDigitsCore (m + 1) m [] (by simp)
  simpa [Nat.repr, Nat.toDigits, List.asString] using this

theorem int_toString_eq (n : ℤ) :
    toString n = (if n < 0 then "-" else "") ++ Nat.repr n.natAbs := by
  cases n with
  | ofNat m =>
    have h : ¬ (Int.ofNat m < 0) := by simp
    rw [if_neg h]
    apply String.ext
    rfl
  | negSucc m =>
    have h : Int.negSucc m < 0 := Int.negSucc_lt_zero m
    rw [if_pos h]
    rfl

theorem numberToString_safe_integer (fracToString : ℚ → String) (n : ℤ)
    (h : n.natAbs < 2 ^ 53) : numberToString fracToString (.fin (n : ℚ)) = toString n := by
  have hc : (n : ℚ).den = 1 ∧ (n : ℚ).num.natAbs < 2 ^ 53 :=
    ⟨Rat.intCast_den n, by rw [Rat.intCast_num]; exact h⟩
  simp only [numberToString]
  rw [if_pos hc, Rat.intCast_num]

theorem occurs_before_span (pre part : String) :
    Occurs (part ++ "%") (pre ++ part ++ "%</span>") :=
  ⟨pre.data, "</span>".data, by simp⟩

/-- Claim C4: for every feature and every risk table, with `k` the key built from `NAME`
and `STATEFP`, the risk is `table[k]` when present and 0 when absent, the fill colour is
`getColor` of that risk, and the tooltip contains `k` and the risk followed by `"%"`: the
tooltip is the fixed markup around `k` and the printed risk, and for an integer risk `n`
of magnitude below `2^53` (0 when the entry is absent) the printed risk is the decimal
digits of `n`, a run of digit characters of value `|n|` after a `-` when `n` is
negative. For `NAME = "Travis"`, `STATEFP = "48"` and the table with the single entry
`"Travis County, TX": 75` the colour is `"#BD0026"` and the tooltip contains
`"Travis County, TX"` and `"75%"`. -/
theorem onEachFeature_composes_lookup_and_getColor :
    (∀ (fracToString : ℚ → String) (riskData : RiskTable) (feature : Feature),
      featureRisk riskData feature =
          (match riskData (featureName feature) with
            | some v => JSNumber.fin v
            | none => JSNumber.fin 0) ∧
        (onEachFeature fracToString riskData feature).style.fillColor =
          getColor (featureRisk riskData feature) ∧
        Occurs (featureName feature)
          (onEachFeature fracToString riskData feature).tooltipContent ∧
        (onEachFeature fracToString riskData feature).tooltipContent =
          "<strong>" ++ featureName feature
            ++ "</strong><br/><span style=\"color:black;\">Risk: "
            ++ numberToString fracToString (featureRisk riskData feature) ++ "%</span>") ∧
    (∀ (fracToString : ℚ → String) (riskData : RiskTable) (feature : Feature) (n : ℤ),
      riskData (featureName feature) = some (n : ℚ) → n.natAbs < 2 ^ 53 →
        (onEachFeature fracToString riskData feature).tooltipContent =
          "<strong>" ++ featureName feature
            ++ "</strong><br/><span style=\"color:black;\">Risk: "
            ++ toString n ++ "%</span>" ∧
        Occurs (toString n ++ "%")
          (onEachFeature fracToString riskData feature).tooltipContent) ∧
    (∀ (fracToString : ℚ → String) (riskData : RiskTable) (feature : Feature),
      riskData (featureName feature) = none →
        (onEachFeature fracToString riskData feature).tooltipContent =
          "<strong>" ++ featureName feature
            ++ "</strong><br/><span style=\"color:black;\">Risk: 0%</span>") ∧
    (∀ n : ℤ,
      toString n = (if n < 0 then "-" else "") ++ Nat.repr n.natAbs ∧
        (∀ c ∈ (Nat.repr n.natAbs).data, c.isDigit = true) ∧
        digitsValue (Nat.repr n.natAbs).data = n.natAbs) ∧
    (∀ fracToString : ℚ → String,
      (onEachFeature fracToString (singleEntry "Travis County, TX" 75)
          ⟨"Travis", "48"⟩).style.fillColor = "#BD0026" ∧
        (onEachFeature fracToString (singleEntry "Travis County, TX" 75)
            ⟨"Travis", "48"⟩).tooltipContent =
          "<strong>Travis County, TX</strong><br/><span style=\"color:black;\">Risk: 75%</span>" ∧
        Occurs "Travis County, TX"
          (onEachFeature fracToString (singleEntry "Travis County, TX" 75)
            ⟨"Travis", "48"⟩).tooltipContent ∧
        Occurs "75%"
          (onEachFeature fracToString (singleEntry "Travis County, TX" 75)
            ⟨"Travis", "48"⟩).tooltipContent) := by
  refine ⟨?_, ?_, ?_, ?_, ?_⟩
  · intro fracToString riskData feature
    refine ⟨?_, rfl, ?_, rfl⟩
    · cases h : riskData (featureName feature) with
      | none => exact featureRisk_of_missing riskData feature h
      | some v => exact featureRisk_of_entry riskData feature v h
    · rw [tooltipContent_eq, String.append_assoc, String.append_assoc]
      exact occurs_mid _ _ _
  · intro fracToString riskData feature n hn hsafe
    have hr := featureRisk_of_entry riskData feature (n : ℚ) hn
    have ht : (onEachFeature fracToString riskData feature).tooltipContent =
        "<strong>" ++ featureName feature
          ++ "</strong><br/><span style=\"color:black;\">Risk: "
          ++ toString n ++ "%</span>" := by
      rw [tooltipContent_eq, hr, numberToString_safe_integer fracToString n hsafe]
    refine ⟨ht, ?_⟩
    rw [ht]
    exact occurs_before_span _ _
  · intro fracToString riskData feature hn
    have hr := featureRisk_of_missing riskData feature hn
    rw [tooltipContent_eq, hr]
    have h0 := numberToString_safe_integer fracToString 0 (by norm_num)
    simp only [Int.cast_zero] at h0
    rw [h0]
    apply String.ext
    simp
    rfl
  · intro n
    exact ⟨int_toString_eq n, isDigit_repr _, digitsValue_repr _⟩
  · intro fracToString
    have hk : featureName ⟨"Travis", "48"⟩ = "Travis County, TX" := by decide
    have hr : featureRisk (singleEntry "Travis County, TX" 75) ⟨"Travis", "48"⟩ = .fin 75 :=
      featureRisk_of_entry _ _ 75 (by decide)
    have hn : numberToString fracToString (.fin 75) = "75" := by
      simp [numberToString]; decide
    have ht : (onEachFeature fracToString (singleEntry "Travis County, TX" 75)
        ⟨"Travis", "48"⟩).tooltipContent =
        "<strong>Travis County, TX</strong><br/><span style=\"color:black;\">Risk: 75%</span>" := by
      rw [tooltipContent_eq, hk, hr, hn]
      decide
    refine ⟨?_, ht, ?_, ?_⟩
    · rw [fillColor_eq, hr]; decide
    · rw [ht]
      exact ⟨"<strong>".data,
        "</strong><br/><span style=\"color:black;\">Risk: 75%</span>".data, by decide⟩
    · rw [ht]
      exact ⟨"<strong>Travis County, TX</strong><br/><span style=\"color:black;\">Risk: ".data,
        "</span>".data, by decide⟩

/-- The printed risk for an entry of 10 against a one-entry table. -/
theorem onEachFeature_composes_lookup_and_getColor_witness :
    (singleEntry "Kings County, NY" 10) (featureName ⟨"Kings", "36"⟩) = some ((10 : ℤ) : ℚ) ∧
    (10 : ℤ).natAbs < 2 ^ 53 ∧
    (onEachFeature (fun _ => "") (singleEntry "Kings County, NY" 10)
        ⟨"Kings", "36"⟩).tooltipContent =
      "<strong>" ++ featureName ⟨"Kings", "36"⟩
        ++ "</strong><br/><span style=\"color:black;\">Risk: "
        ++ toString (10 : ℤ) ++ "%</span>" :=
  ⟨by decide, by decide,
    (onEachFeature_composes_lookup_and_getColor.2.1 (fun _ => "")
      (singleEntry "Kings County, NY" 10) ⟨"Kings", "36"⟩ 10 (by decide) (by decide)).1⟩

theorem numberToString_zero (fracToString : ℚ → String) :
    numberToString fracToString (.fin 0) = "0" := by
  simp [numberToString]; decide

theorem singleEntry_keysWellFormed (county abbr : String) (value : ℚ)
    (h : abbr ∈ stateAbbrs) :
    RiskTable.KeysWellFormed (singleEntry (county ++ " County, " ++ abbr) value) := by
  intro key hkey
  by_cases hk : key = county ++ " County, " ++ abbr
  · exact ⟨county, abbr, h, hk⟩
  · simp [singleEntry, hk] at hkey

/-- Claim C5: for a feature whose key has no entry in the risk table, `onEachFeature`
uses risk 0, the fill colour is `"#FFEDA0"` and the tooltip contains `"Risk: 0%"`; and
with the empty table of the initial state every feature is annotated this way. -/
theorem onEachFeature_missing_entry (fracToString : ℚ → String) (riskData : RiskTable)
    (feature : Feature) (h : riskData (featureName feature) = none) :
    (featureRisk riskData feature = .fin 0 ∧
      (onEachFeature fracToString riskData feature).style.fillColor = "#FFEDA0" ∧
      Occurs "Risk: 0%" (onEachFeature fracToString riskData feature).tooltipContent) ∧
    (featureRisk initialRiskData feature = .fin 0 ∧
      (onEachFeature fracToString initialRiskData feature).style.fillColor = "#FFEDA0" ∧
      Occurs "Risk: 0%"
        (onEachFeature fracToString initialRiskData feature).tooltipContent) := by
  have key : ∀ t : RiskTable, t (featureName feature) = none →
      featureRisk t feature = .fin 0 ∧
      (onEachFeature fracToString t feature).style.fillColor = "#FFEDA0" ∧
      Occurs "Risk: 0%" (onEachFeature fracToString t feature).tooltipContent := by
    intro t ht
    have hr := featureRisk_of_missing t feature ht
    refine ⟨hr, ?_, ?_⟩
    · rw [fillColor_eq, hr]; decide
    · rw [tooltipContent_eq, hr, numberToString_zero]
      exact ⟨("<strong>" ++ featureName feature
        ++ "</strong><br/><span style=\"color:black;\">").data, "</span>".data, by simp⟩
  exact ⟨key riskData h, key initialRiskData rfl⟩

/-- A feature of New York annotated against a table holding only a Texas county. -/
theorem onEachFeature_missing_entry_witness :
    (singleEntry "Travis County, TX" 75) (featureName ⟨"Kings", "36"⟩) = none ∧
    featureRisk (singleEntry "Travis County, TX" 75) ⟨"Kings", "36"⟩ = .fin 0 ∧
    (onEachFeature (fun _ => "") (singleEntry "Travis County, TX" 75)
      ⟨"Kings", "36"⟩).style.fillColor = "#FFEDA0" :=
  ⟨by decide,
    (onEachFeature_missing_entry (fun _ => "") (singleEntry "Travis County, TX" 75)
      ⟨"Kings", "36"⟩ (by decide)).1.1,
    (onEachFeature_missing_entry (fun _ => "") (singleEntry "Travis County, TX" 75)
      ⟨"Kings", "36"⟩ (by decide)).1.2.1⟩

theorem numberToString_neg_five (fracToString : ℚ → String) :
    numberToString fracToString (.fin (-5)) = "-5" := by
  simp [numberToString]; decide

set_option maxRecDepth 100000 in
theorem zero_percent_not_in_negative_tooltip :
    ¬ Occurs "Risk: 0%"
      "<strong>Travis County, TX</strong><br/><span style=\"color:black;\">Risk: -5%</span>" := by
  unfold Occurs
  decide

/-- Claim C6 fails as stated: with the entry `"Travis County, TX": -5`, a value below 0,
the risk is `-5`, not 0, and the tooltip reads `Risk: -5%`, not `Risk: 0%`. -/
theorem negative_entry_is_not_shown_as_zero :
    (singleEntry "Travis County, TX" (-5)) (featureName ⟨"Travis", "48"⟩) = some (-5) ∧
    (-5 : ℚ) ≤ 0 ∧
    featureRisk (singleEntry "Travis County, TX" (-5)) ⟨"Travis", "48"⟩ = .fin (-5) ∧
    featureRisk (singleEntry "Travis County, TX" (-5)) ⟨"Travis", "48"⟩ ≠ .fin 0 ∧
    ∀ fracToString : ℚ → String,
      (onEachFeature fracToString (singleEntry "Travis County, TX" (-5))
          ⟨"Travis", "48"⟩).tooltipContent =
        "<strong>Travis County, TX</strong><br/><span style=\"color:black;\">Risk: -5%</span>" ∧
      ¬ Occurs "Risk: 0%"
        (onEachFeature fracToString (singleEntry "Travis County, TX" (-5))
          ⟨"Travis", "48"⟩).tooltipContent := by
  refine ⟨by decide, by decide, by decide, by decide, ?_⟩
  intro fracToString
  have hk : featureName ⟨"Travis", "48"⟩ = "Travis County, TX" := by decide
  have hr : featureRisk (singleEntry "Travis County, TX" (-5)) ⟨"Travis", "48"⟩ = .fin (-5) := by
    decide
  have ht : (onEachFeature fracToString (singleEntry "Travis County, TX" (-5))
      ⟨"Travis", "48"⟩).tooltipContent =
      "<strong>Travis County, TX</strong><br/><span style=\"color:black;\">Risk: -5%</span>" := by
    rw [tooltipContent_eq, hk, hr, numberToString_neg_five]
    decide
  refine ⟨ht, ?_⟩
  rw [ht]
  exact zero_percent_not_in_negative_tooltip

/-- Claim C6, as amended: for a feature whose risk-table entry is a value `v ≤ 0`, the
fill colour is `"#FFEDA0"`, and the risk, also the one printed in the tooltip, is `v`
itself: 0 for a zero entry, as for a missing entry. -/
theorem onEachFeature_nonpositive_entry (fracToString : ℚ → String) (riskData : RiskTable)
    (feature : Feature) (v : ℚ) (h : riskData (featureName feature) = some v)
    (hv : v ≤ 0) :
    (onEachFeature fracToString riskData feature).style.fillColor = "#FFEDA0" ∧
    featureRisk riskData feature = .fin v ∧
    (onEachFeature fracToString riskData feature).tooltipContent =
      "<strong>" ++ featureName feature ++ "</strong><br/><span style=\"color:black;\">Risk: "
        ++ numberToString fracToString (.fin v) ++ "%</span>" ∧
    (v = 0 → Occurs "Risk: 0%" (onEachFeature fracToString riskData feature).tooltipContent) := by
  have hr := featureRisk_of_entry riskData feature v h
  refine ⟨?_, hr, ?_, ?_⟩
  · rw [fillColor_eq, hr, getColor_fin]
    split_ifs <;> first | rfl | (exfalso; linarith)
  · rw [tooltipContent_eq, hr]
  · rintro rfl
    rw [tooltipContent_eq, hr, numberToString_zero]
    exact ⟨("<strong>" ++ featureName feature
      ++ "</strong><br/><span style=\"color:black;\">").data, "</span>".data, by simp⟩

/-- The amended statement applied to the entry `-5`. -/
theorem onEachFeature_nonpositive_entry_witness :
    (singleEntry "Travis County, TX" (-5)) (featureName ⟨"Travis", "48"⟩) = some (-5) ∧
    (-5 : ℚ) ≤ 0 ∧
    (onEachFeature (fun _ => "") (singleEntry "Travis County, TX" (-5))
      ⟨"Travis", "48"⟩).style.fillColor = "#FFEDA0" ∧
    featureRisk (singleEntry "Travis County, TX" (-5)) ⟨"Travis", "48"⟩ = .fin (-5) :=
  ⟨by decide, by decide,
    (onEachFeature_nonpositive_entry (fun _ => "") (singleEntry "Travis County, TX" (-5))
      ⟨"Travis", "48"⟩ (-5) (by decide) (by decide)).1,
    (onEachFeature_nonpositive_entry (fun _ => "") (singleEntry "Travis County, TX" (-5))
      ⟨"Travis", "48"⟩ (-5) (by decide) (by decide)).2.1⟩

/-- Claim C7 fails as stated: `"99"` is a FIPS code that is not a key of
`fipsToStateAbbr`, the key built for county `"Unknown"` is `"Unknown County, undefined"`,
and against the table with the single entry `"Unknown County, undefined": 55` the read of
that key hits: the risk is 55, not 0, and the fill colour is `"#E31A1C"`, not `"#FFEDA0"`. -/
theorem unknown_fips_key_can_hit :
    isFipsCode "99" = true ∧ "99" ∉ fipsToStateAbbr.map Prod.fst ∧
    featureName ⟨"Unknown", "99"⟩ = "Unknown County, undefined" ∧
    (singleEntry "Unknown County, undefined" 55) (featureName ⟨"Unknown", "99"⟩) = some 55 ∧
    featureRisk (singleEntry "Unknown County, undefined" 55) ⟨"Unknown", "99"⟩ = .fin 55 ∧
    featureRisk (singleEntry "Unknown County, undefined" 55) ⟨"Unknown", "99"⟩ ≠ .fin 0 ∧
    ∀ fracToString : ℚ → String,
      (onEachFeature fracToString (singleEntry "Unknown County, undefined" 55)
          ⟨"Unknown", "99"⟩).style.fillColor = "#E31A1C" ∧
      (onEachFeature fracToString (singleEntry "Unknown County, undefined" 55)
          ⟨"Unknown", "99"⟩).style.fillColor ≠ "#FFEDA0" := by
  refine ⟨by decide, by decide, by decide, by decide, by decide, by decide, ?_⟩
  intro fracToString
  have hc : (onEachFeature fracToString (singleEntry "Unknown County, undefined" 55)
      ⟨"Unknown", "99"⟩).style.fillColor = "#E31A1C" := by
    rw [fillColor_eq]; decide
  exact ⟨hc, by rw [hc]; decide⟩

/-- Claim C7, as amended: for every county name `c` and every FIPS code `f` that is not a
key of `fipsToStateAbbr`, the key built by `onEachFeature` is `c` followed by
`" County, undefined"` and it contains `"undefined"`; for every risk table that has no
entry under that key the read misses, so the risk is 0 and the fill colour is `"#FFEDA0"`;
every table whose keys have the documented form has no entry under that key; and a table
that holds an entry `v` under that key hits, the risk being `v`. -/
theorem onEachFeature_unknown_fips (c f : String) (_hf : isFipsCode f = true)
    (h : f ∉ fipsToStateAbbr.map Prod.fst) :
    fipsLookup f = none ∧
    featureName ⟨c, f⟩ = c ++ " County, undefined" ∧
    Occurs "undefined" (featureName ⟨c, f⟩) ∧
    ∀ (fracToString : ℚ → String) (riskData : RiskTable),
      (riskData (c ++ " County, undefined") = none →
        riskData.read (featureName ⟨c, f⟩) = none ∧
        featureRisk riskData ⟨c, f⟩ = .fin 0 ∧
        (onEachFeature fracToString riskData ⟨c, f⟩).style.fillColor = "#FFEDA0") ∧
      (riskData.KeysWellFormed → riskData (c ++ " County, undefined") = none) ∧
      (∀ v : ℚ, riskData (c ++ " County, undefined") = some v →
        featureRisk riskData ⟨c, f⟩ = .fin v ∧
        (onEachFeature fracToString riskData ⟨c, f⟩).style.fillColor = getColor (.fin v)) := by
  have hl : fipsLookup f = none := lookup_eq_none_of_not_mem_keys h
  have hk : featureName ⟨c, f⟩ = c ++ " County, undefined" := by
    apply String.ext
    simp [featureName, hl, stringOrUndefined]
  refine ⟨hl, hk, ?_, ?_⟩
  · rw [hk]
    exact ⟨(c ++ " County, ").data, [], by simp⟩
  · intro fracToString riskData
    refine ⟨?_, ?_, ?_⟩
    · intro hmiss
      rw [← hk] at hmiss
      have hr := featureRisk_of_missing riskData ⟨c, f⟩ hmiss
      refine ⟨by simp [RiskTable.read, hmiss], hr, ?_⟩
      rw [fillColor_eq, hr]; decide
    · intro hwf
      by_contra hne
      obtain ⟨county, abbr, habbr, hkey⟩ := hwf _ hne
      have hd := congrArg String.data hkey
      have hsplit : (c ++ " County, undefined").data
          = (c ++ " County, undefin").data ++ "ed".data := by simp
      rw [hsplit] at hd
      simp only [String.data_append] at hd
      have hlen : "ed".data.length = abbr.data.length :=
        (stateAbbrs_length_two abbr habbr).symm
      have hed : "ed".data = abbr.data := List.append_inj_right' hd hlen
      have : abbr = "ed" := String.ext hed.symm
      subst this
      exact absurd habbr (by decide)
    · intro v hv
      rw [← hk] at hv
      have hr := featureRisk_of_entry riskData ⟨c, f⟩ v hv
      exact ⟨hr, by rw [fillColor_eq, hr]⟩

/-- The unknown code `"99"` against a table whose only key, `"San Juan County, PR"`, is
not of a known state, and against a table holding a Texas county. -/
theorem onEachFeature_unknown_fips_witness :
    isFipsCode "99" = true ∧ "99" ∉ fipsToStateAbbr.map Prod.fst ∧
    featureName ⟨"Unknown", "99"⟩ = "Unknown" ++ " County, undefined" ∧
    (singleEntry "San Juan County, PR" 30) ("Unknown" ++ " County, undefined") = none ∧
    featureRisk (singleEntry "San Juan County, PR" 30) ⟨"Unknown", "99"⟩ = .fin 0 ∧
    RiskTable.KeysWellFormed (singleEntry ("Travis" ++ " County, " ++ "TX") 75) ∧
    (singleEntry ("Travis" ++ " County, " ++ "TX") 75) ("Unknown" ++ " County, undefined")
      = none :=
  ⟨by decide, by decide,
    (onEachFeature_unknown_fips "Unknown" "99" (by decide) (by decide)).2.1,
    by decide,
    (((onEachFeature_unknown_fips "Unknown" "99" (by decide) (by decide)).2.2.2
      (fun _ => "") (singleEntry "San Juan County, PR" 30)).1 (by decide)).2.1,
    singleEntry_keysWellFormed "Travis" "TX" 75 (by decide),
    ((onEachFeature_unknown_fips "Unknown" "99" (by decide) (by decide)).2.2.2
      (fun _ => "") (singleEntry ("Travis" ++ " County, " ++ "TX") 75)).2.1
      (singleEntry_keysWellFormed "Travis" "TX" 75 (by decide))⟩

/-- Claim C10: `fipsToStateAbbr` has 51 distinct FIPS codes and 51 pairwise distinct
abbreviations of two capital letters, and the key is injective on known states: if the
keys built from `(c₁, f₁)` and `(c₂, f₂)`, with `f₁` and `f₂` keys of `fipsToStateAbbr`,
are equal, then `c₁ = c₂` and `f₁ = f₂`. -/
theorem featureName_injective_on_known_states :
    fipsToStateAbbr.length = 51 ∧
    (fipsToStateAbbr.map Prod.fst).Nodup ∧
    stateAbbrs.length = 51 ∧
    stateAbbrs.Nodup ∧
    (∀ abbr ∈ stateAbbrs, abbr.length = 2 ∧ abbr.data.all Char.isUpper = true) ∧
    ∀ c₁ c₂ f₁ f₂ : String,
      f₁ ∈ fipsToStateAbbr.map Prod.fst → f₂ ∈ fipsToStateAbbr.map Prod.fst →
      featureName ⟨c₁, f₁⟩ = featureName ⟨c₂, f₂⟩ → c₁ = c₂ ∧ f₁ = f₂ := by
  refine ⟨by decide, by decide, by decide, by decide, by decide, ?_⟩
  intro c₁ c₂ f₁ f₂ h₁ h₂ hkey
  obtain ⟨a₁, ha₁⟩ := lookup_eq_some_of_mem_keys h₁
  obtain ⟨a₂, ha₂⟩ := lookup_eq_some_of_mem_keys h₂
  rw [featureName_of_lookup c₁ f₁ a₁ ha₁, featureName_of_lookup c₂ f₂ a₂ ha₂] at hkey
  have hm₁ := mem_of_lookup_eq_some ha₁
  have hm₂ := mem_of_lookup_eq_some ha₂
  have hl₁ := stateAbbrs_length_two a₁ (List.mem_map_of_mem Prod.snd hm₁)
  have hl₂ := stateAbbrs_length_two a₂ (List.mem_map_of_mem Prod.snd hm₂)
  obtain ⟨hc, ha⟩ := key_append_inj (hl₁.trans hl₂.symm) hkey
  refine ⟨hc, ?_⟩
  have hnd : (fipsToStateAbbr.map Prod.snd).Nodup := by decide
  have := List.inj_on_of_nodup_map hnd hm₁ hm₂ ha
  exact congrArg Prod.fst this

/-- Orange County, California and Orange County, Texas have different keys. -/
theorem featureName_injective_on_known_states_witness :
    "06" ∈ fipsToStateAbbr.map Prod.fst ∧ "48" ∈ fipsToStateAbbr.map Prod.fst ∧
    featureName ⟨"Orange", "06"⟩ ≠ featureName ⟨"Orange", "48"⟩ :=
  ⟨by decide, by decide, fun hkey =>
    absurd (featureName_injective_on_known_states.2.2.2.2.2 "Orange" "Orange" "06" "48"
      (by decide) (by decide) hkey).2 (by decide)⟩

/-! ## The legend -/

theorem covers_fin_iff (e : LegendEntry) (lo hi : ℕ) (h : labelRange e.label = some (lo, hi))
    (q : ℚ) : e.covers (.fin q) = true ↔ (lo : ℚ) ≤ q ∧ q ≤ (hi : ℚ) := by
  simp [LegendEntry.covers, h, JSNumber.le, JSNumber.lt]

theorem fin_of_between (r : JSNumber) (h0 : JSNumber.le (.fin 0) r = true)
    (h100 : JSNumber.le r (.fin 100) = true) : ∃ q : ℚ, r = .fin q ∧ 0 ≤ q ∧ q ≤ 100 := by
  cases r with
  | nan => simp [JSNumber.le] at h0
  | negInf => simp [JSNumber.le, JSNumber.lt] at h0
  | posInf => simp [JSNumber.le, JSNumber.lt] at h100
  | fin q =>
    refine ⟨q, rfl, ?_, ?_⟩
    · simpa [JSNumber.le, JSNumber.lt] using h0
    · simpa [JSNumber.le, JSNumber.lt] using h100

theorem legend_covers_cases (e : LegendEntry) (he : e ∈ legend) (q : ℚ)
    (hc : e.covers (.fin q) = true) :
    (e = ⟨"#FFEDA0", "0–20% (Low)"⟩ ∧ 0 ≤ q ∧ q ≤ 20) ∨
    (e = ⟨"#FD8D3C", "21–40% (Moderate)"⟩ ∧ 21 ≤ q ∧ q ≤ 40) ∨
    (e = ⟨"#E31A1C", "41–60% (High)"⟩ ∧ 41 ≤ q ∧ q ≤ 60) ∨
    (e = ⟨"#BD0026", "61–80% (Very High)"⟩ ∧ 61 ≤ q ∧ q ≤ 80) ∨
    (e = ⟨"#800026", "81–100% (Extreme)"⟩ ∧ 81 ≤ q ∧ q ≤ 100) := by
  simp only [legend, List.mem_cons, List.mem_singleton, List.not_mem_nil, or_false] at he
  rcases he with rfl | rfl | rfl | rfl | rfl
  · have := (covers_fin_iff _ 0 20 (by decide) q).mp hc
    exact Or.inl ⟨rfl, by simpa using this⟩
  · have := (covers_fin_iff _ 21 40 (by decide) q).mp hc
    exact Or.inr (Or.inl ⟨rfl, by simpa using this⟩)
  · have := (covers_fin_iff _ 41 60 (by decide) q).mp hc
    exact Or.inr (Or.inr (Or.inl ⟨rfl, by simpa using this⟩))
  · have := (covers_fin_iff _ 61 80 (by decide) q).mp hc
    exact Or.inr (Or.inr (Or.inr (Or.inl ⟨rfl, by simpa using this⟩)))
  · have := (covers_fin_iff _ 81 100 (by decide) q).mp hc
    exact Or.inr (Or.inr (Or.inr (Or.inr ⟨rfl, by simpa using this⟩)))

/-- Claim C8 fails as stated: the risk 20.5 lies between 0 and 100, `getColor` gives it
`"#FD8D3C"`, and no row of the legend covers it. -/
theorem legend_gap_between_twenty_and_twenty_one :
    JSNumber.le (.fin 0) (.fin (41 / 2)) = true ∧
    JSNumber.le (.fin (41 / 2)) (.fin 100) = true ∧
    getColor (.fin (41 / 2)) = "#FD8D3C" ∧
    ¬ ∃ e ∈ legend, e.covers (.fin (41 / 2)) = true := by
  refine ⟨?_, ?_, ?_, ?_⟩
  · simp [JSNumber.le, JSNumber.lt]; norm_num
  · simp [JSNumber.le, JSNumber.lt]; norm_num
  · rw [getColor_fin]; norm_num
  · rintro ⟨e, he, hc⟩
    rcases legend_covers_cases e he _ hc with
      ⟨-, h1, h2⟩ | ⟨-, h1, h2⟩ | ⟨-, h1, h2⟩ | ⟨-, h1, h2⟩ | ⟨-, h1, h2⟩ <;>
      norm_num at h1 h2

/-- Claim C8, as amended: the legend has the five rows 0–20 `"#FFEDA0"`, 21–40
`"#FD8D3C"`, 41–60 `"#E31A1C"`, 61–80 `"#BD0026"`, 81–100 `"#800026"`; for every risk
`r` with `0 <= r <= 100`, a row that covers `r` has the colour `getColor r` and at
most one row covers `r`; and when `r` is an integer, a row covers it. -/
theorem legend_mirrors_getColor :
    legend.map (fun e => (labelRange e.label, e.background)) =
      [ (some (0, 20), "#FFEDA0"), (some (21, 40), "#FD8D3C"), (some (41, 60), "#E31A1C"),
        (some (61, 80), "#BD0026"), (some (81, 100), "#800026") ] ∧
    ∀ r : JSNumber, JSNumber.le (.fin 0) r = true → JSNumber.le r (.fin 100) = true →
      (∀ e ∈ legend, e.covers r = true → e.background = getColor r) ∧
      (∀ e ∈ legend, ∀ e' ∈ legend, e.covers r = true → e'.covers r = true → e = e') ∧
      (r.isInteger = true → ∃ e ∈ legend, e.covers r = true) := by
  refine ⟨by decide, ?_⟩
  intro r h0 h100
  obtain ⟨q, rfl, hq0, hq100⟩ := fin_of_between r h0 h100
  refine ⟨?_, ?_, ?_⟩
  · intro e he hc
    rw [getColor_fin]
    rcases legend_covers_cases e he q hc with
      ⟨rfl, h1, h2⟩ | ⟨rfl, h1, h2⟩ | ⟨rfl, h1, h2⟩ | ⟨rfl, h1, h2⟩ | ⟨rfl, h1, h2⟩ <;>
      split_ifs <;> first | rfl | (exfalso; linarith)
  · intro e he e' he' hc hc'
    rcases legend_covers_cases e he q hc with
      ⟨rfl, h1, h2⟩ | ⟨rfl, h1, h2⟩ | ⟨rfl, h1, h2⟩ | ⟨rfl, h1, h2⟩ | ⟨rfl, h1, h2⟩ <;>
    rcases legend_covers_cases e' he' q hc' with
      ⟨rfl, h1', h2'⟩ | ⟨rfl, h1', h2'⟩ | ⟨rfl, h1', h2'⟩ | ⟨rfl, h1', h2'⟩ | ⟨rfl, h1', h2'⟩ <;>
    first | rfl | (exfalso; linarith)
  · intro hint
    have hden : q.den = 1 := by simpa [JSNumber.isInteger] using hint
    have hq : ((q.num : ℤ) : ℚ) = q := Rat.coe_int_num_of_den_eq_one hden
    have hn0 : (0 : ℤ) ≤ q.num := by
      have : (0 : ℚ) ≤ (q.num : ℚ) := by rw [hq]; exact hq0
      exact_mod_cast this
    have hn100 : q.num ≤ 100 := by
      have : ((q.num : ℤ) : ℚ) ≤ 100 := by rw [hq]; exact hq100
      exact_mod_cast this
    have hcases : q.num ≤ 20 ∨ (21 ≤ q.num ∧ q.num ≤ 40) ∨ (41 ≤ q.num ∧ q.num ≤ 60) ∨
        (61 ≤ q.num ∧ q.num ≤ 80) ∨ 81 ≤ q.num := by omega
    rcases hcases with h | ⟨h, h'⟩ | ⟨h, h'⟩ | ⟨h, h'⟩ | h
    · refine ⟨⟨"#FFEDA0", "0–20% (Low)"⟩, by simp [legend], ?_⟩
      rw [covers_fin_iff _ 0 20 (by decide), ← hq]
      exact ⟨by exact_mod_cast hn0, by exact_mod_cast h⟩
    · refine ⟨⟨"#FD8D3C", "21–40% (Moderate)"⟩, by simp [legend], ?_⟩
      rw [covers_fin_iff _ 21 40 (by decide), ← hq]
      exact ⟨by exact_mod_cast h, by exact_mod_cast h'⟩
    · refine ⟨⟨"#E31A1C", "41–60% (High)"⟩, by simp [legend], ?_⟩
      rw [covers_fin_iff _ 41 60 (by decide), ← hq]
      exact ⟨by exact_mod_cast h, by exact_mod_cast h'⟩
    · refine ⟨⟨"#BD0026", "61–80% (Very High)"⟩, by simp [legend], ?_⟩
      rw [covers_fin_iff _ 61 80 (by decide), ← hq]
      exact ⟨by exact_mod_cast h, by exact_mod_cast h'⟩
    · refine ⟨⟨"#800026", "81–100% (Extreme)"⟩, by simp [legend], ?_⟩
      rw [covers_fin_iff _ 81 100 (by decide), ← hq]
      exact ⟨by exact_mod_cast h, by exact_mod_cast hn100⟩

/-- The integer risk 75 is covered by a row of the legend. -/
theorem legend_mirrors_getColor_witness :
    JSNumber.le (.fin 0) (.fin 75) = true ∧ JSNumber.le (.fin 75) (.fin 100) = true ∧
    (JSNumber.fin 75).isInteger = true ∧
    ∃ e ∈ legend, e.covers (.fin 75) = true :=
  ⟨by decide, by decide, by decide,
    (legend_mirrors_getColor.2 (.fin 75) (by decide) (by decide)).2.2 (by decide)⟩

/-- Monotonicity applied to the risks 10 and 90. -/
theorem getColor_monotone_in_warmth_witness :
    JSNumber.le (.fin 10) (.fin 90) = true ∧
    warmth (getColor (.fin 10)) ≤ warmth (getColor (.fin 90)) :=
  ⟨by decide, getColor_monotone_in_warmth.1 (.fin 10) (.fin 90) (by decide)⟩

end FireWatch
